import Mathlib

/-!
Verification of the Zoom integration handlers (`src/zoom_handlers.py`).

The development shallowly embeds the pure logic of the module:

* `webvtt_to_json` — the WebVTT caption parser (`webvtt_to_json`, lines
  406–431 of the source).  Python's `str.split(sep)` / `re.split` on a
  literal pattern are modelled by `pySplit` (leftmost, non-overlapping
  occurrences of the separator), `str.strip()` by `pyStripL`, and the
  two-variable unpacking `start, end = timing.split(" --> ")` by a match
  that succeeds exactly when the split has two parts (Python raises
  `ValueError`, caught by the surrounding `try`, otherwise).
* `get_access_token` — the OAuth token cache (`ZoomOAuth.get_access_token`,
  lines 24–59).  Wall-clock time is a natural number, the token-endpoint
  POST is an oracle value, and the call result records how many POSTs and
  configuration reads the call performed.
* `get_instructor_recordings` and friends — the recording discovery loop,
  the per-recording report/course filter, and the transcript operations
  (lines 119–403).  The Zoom REST API is an oracle (`ZoomApi`); each call
  either returns a value, fails with an HTTP-status error carrying the
  status and the decoded `code` field of the error body, or fails with a
  network-level transport error (`requests` exceptions that are not
  `HTTPError`).  Python exceptions are modelled by explicit `PyError`
  values; the `except` clauses of the source become matches on them.

All functions are computable and kernel-reducible (loops use structural
fuel bounded at the call site), so every concrete scenario evaluates by
`decide` / `rfl`.
-/

/-! ## Python string primitives -/

/-- The characters removed by Python's `str.strip()` (ASCII whitespace). -/
def isPySpace (c : Char) : Bool :=
  c = ' ' || c = '\t' || c = '\n' || c = '\r' || c = '\x0b' || c = '\x0c'

/-- Python `str.strip()` on a character list: drop leading and trailing
whitespace. -/
def pyStripL (xs : List Char) : List Char :=
  ((xs.dropWhile isPySpace).reverse.dropWhile isPySpace).reverse

/-- Scanner for Python `str.split(sep)` (and `re.split` on a literal
pattern): cut at each leftmost, non-overlapping occurrence of `sep`.
`acc` holds the current chunk reversed; `fuel` only forces structural
recursion and is chosen `≥` the input length at the wrapper, which keeps
the function kernel-reducible.  When the fuel reaches zero the input is
already empty (the invariant `l.length ≤ fuel` is maintained), and the
zero case is defined to agree with the empty-input case. -/
def pySplitAuxF (sep : List Char) : Nat → List Char → List Char → List (List Char)
  | 0, l, acc => [acc.reverse ++ l]
  | _ + 1, [], acc => [acc.reverse]
  | fuel + 1, c :: rest, acc =>
    if sep.isPrefixOf (c :: rest) then
      acc.reverse :: pySplitAuxF sep fuel (rest.drop (sep.length - 1)) []
    else
      pySplitAuxF sep fuel rest (c :: acc)

/-- Python `s.split(sep)` for a non-empty separator `sep`. -/
def pySplit (sep xs : List Char) : List (List Char) :=
  pySplitAuxF sep xs.length xs []

/-- Python `sep.join(parts)`. -/
def joinWith (sep : List Char) : List (List Char) → List Char
  | [] => []
  | [l] => l
  | l :: ls => l ++ sep ++ joinWith sep ls

/-! ## The caption parser (`webvtt_to_json`, source lines 406–431) -/

/-- One parsed caption entry, the dictionary built at source line 427. -/
structure Caption where
  index : String
  start : String
  stop : String
  text : String
deriving Repr, DecidableEq

/-- The literal separator `" --> "` of a WebVTT timing line. -/
def vttSep : List Char := ' ' :: '-' :: '-' :: '>' :: ' ' :: []

/-- Processing of one caption block (the body of the `for` loop, source
lines 412–429): skip the `WEBVTT` header (case-insensitively, after
stripping), require at least three `\r\n`-separated lines, and split the
timing line at `" --> "`; the two-variable unpacking succeeds exactly
when that split has two parts, otherwise the `ValueError` is caught and
the block contributes nothing.  Python's `str.upper()` is modelled by
`Char.toUpper` (ASCII case mapping, which is all the header comparison
exercises). -/
def parseBlock (caption : List Char) : Option Caption :=
  if (pyStripL caption).map Char.toUpper = "WEBVTT".data then
    none
  else
    match pySplit ('\r' :: '\n' :: []) caption with
    | index :: timing :: text0 :: textRest =>
      match pySplit vttSep timing with
      | s :: e :: [] =>
        some ⟨⟨index⟩, ⟨s⟩, ⟨e⟩, ⟨joinWith (' ' :: []) (text0 :: textRest)⟩⟩
      | _ => none
    | _ => none

/-- The record sequence produced by `webvtt_to_json` on a character list:
strip the input, split it into blocks at `\r\n\r\n`, and parse each
block.  (The source finally serialises the list with `json.dumps`; the
claims are about the records, so the embedding keeps the list.) -/
def webvttRecords (cs : List Char) : List Caption :=
  (pySplit ('\r' :: '\n' :: '\r' :: '\n' :: []) (pyStripL cs)).filterMap parseBlock

/-- `webvtt_to_json` (source lines 406–431), as the sequence of caption
records it serialises. -/
def webvtt_to_json (webvtt_content : String) : List Caption :=
  webvttRecords webvtt_content.data

/-! ## Lemmas about the split scanner -/

theorem pySplitAuxF_fuel_irrel (sep : List Char) :
    ∀ f₁ f₂ l acc, l.length ≤ f₁ → l.length ≤ f₂ →
      pySplitAuxF sep f₁ l acc = pySplitAuxF sep f₂ l acc := by
  intro f₁
  induction f₁ with
  | zero =>
    intro f₂ l acc h₁ _
    have hl : l = [] := List.eq_nil_of_length_eq_zero (Nat.le_zero.mp h₁)
    subst hl
    cases f₂ <;> simp [pySplitAuxF]
  | succ f ih =>
    intro f₂ l acc h₁ h₂
    cases l with
    | nil => cases f₂ <;> simp [pySplitAuxF]
    | cons c rest =>
      cases f₂ with
      | zero => simp at h₂
      | succ g =>
        simp only [pySplitAuxF]
        by_cases hp : sep.isPrefixOf (c :: rest)
        · rw [if_pos hp, if_pos hp]
          have hd : (rest.drop (sep.length - 1)).length ≤ rest.length := by
            simp [List.length_drop]
          simp only [List.length_cons] at h₁ h₂
          rw [ih g _ [] (by omega) (by omega)]
        · rw [if_neg hp, if_neg hp]
          simp only [List.length_cons] at h₁ h₂
          exact ih g rest (c :: acc) (by omega) (by omega)

/-- Scanning past a stretch of the input in which no occurrence of the
separator starts leaves the scanner walking char by char. -/
theorem pySplitAuxF_no_match (sep : List Char) :
    ∀ (xs : List Char) (fuel : Nat) (rest acc : List Char),
      (∀ i, i < xs.length → ¬ sep.isPrefixOf (xs.drop i ++ rest)) →
      xs.length + rest.length ≤ fuel →
      pySplitAuxF sep fuel (xs ++ rest) acc =
        pySplitAuxF sep (fuel - xs.length) rest (xs.reverse ++ acc) := by
  intro xs
  induction xs with
  | nil => intro fuel rest acc _ _; simp
  | cons c xs ih =>
    intro fuel rest acc hno hfuel
    cases fuel with
    | zero => simp at hfuel
    | succ f =>
      have h0 : ¬ sep.isPrefixOf (c :: (xs ++ rest)) := by
        have := hno 0 (by simp)
        simpa using this
      simp only [List.cons_append, pySplitAuxF, List.append_eq]
      rw [if_neg h0]
      have hrec := ih f rest (c :: acc)
        (fun i hi => by
          have := hno (i + 1) (by simpa using Nat.succ_lt_succ hi)
          simpa using this)
        (by simp only [List.length_cons] at hfuel; omega)
      rw [hrec]
      simp [List.length_cons, Nat.succ_sub_succ]

/-- When the separator starts right here, the scanner emits the current
chunk and resumes after the separator. -/
theorem pySplitAuxF_match (sep : List Char) (hsep : sep ≠ []) :
    ∀ (fuel : Nat) (rest acc : List Char),
      pySplitAuxF sep (fuel + 1) (sep ++ rest) acc =
        acc.reverse :: pySplitAuxF sep fuel rest [] := by
  intro fuel rest acc
  cases sep with
  | nil => exact absurd rfl hsep
  | cons s0 sep' =>
    have hp : (s0 :: sep').isPrefixOf (s0 :: (sep' ++ rest)) := by
      rw [List.isPrefixOf_iff_prefix]
      exact ⟨rest, by simp⟩
    simp only [List.cons_append, pySplitAuxF, if_pos hp]
    simp [List.drop_left]

/-- Python split at an explicit leading occurrence of the separator, when
no occurrence starts earlier. -/
theorem pySplit_append_sep (sep : List Char) (hsep : sep ≠ [])
    (xs rest : List Char)
    (hno : ∀ i, i < xs.length → ¬ sep.isPrefixOf (xs.drop i ++ (sep ++ rest))) :
    pySplit sep (xs ++ sep ++ rest) = xs :: pySplit sep rest := by
  have hsl : 1 ≤ sep.length := by
    cases sep with
    | nil => exact absurd rfl hsep
    | cons a l => simp
  unfold pySplit
  rw [List.append_assoc]
  rw [pySplitAuxF_no_match sep xs _ (sep ++ rest) [] hno (by simp)]
  have hfe : (xs ++ (sep ++ rest)).length - xs.length =
      (sep.length + rest.length - 1) + 1 := by
    simp [List.length_append]
    omega
  rw [hfe, pySplitAuxF_match sep hsep]
  rw [pySplitAuxF_fuel_irrel sep (sep.length + rest.length - 1) rest.length rest []
    (by omega) le_rfl]
  simp

/-- Python split of a string in which the separator never occurs. -/
theorem pySplit_no_sep (sep : List Char) (_hsep : sep ≠ []) (xs : List Char)
    (hno : ∀ i, i < xs.length → ¬ sep.isPrefixOf (xs.drop i)) :
    pySplit sep xs = [xs] := by
  unfold pySplit
  have h := pySplitAuxF_no_match sep xs xs.length [] []
    (fun i hi => by simpa using hno i hi) (by simp)
  simpa [pySplitAuxF] using h

/-- C4: the end-to-end example parses to exactly the two expected records,
the header block contributing none. -/
theorem c4_webvtt_example :
    webvtt_to_json "WEBVTT\r\n\r\n1\r\n00:00:00.000 --> 00:00:02.000\r\nHello world\r\n\r\n2\r\n00:00:02.000 --> 00:00:04.000\r\nSecond line" =
      [⟨"1", "00:00:00.000", "00:00:02.000", "Hello world"⟩,
       ⟨"2", "00:00:02.000", "00:00:04.000", "Second line"⟩] := by
  decide

/-- A block is malformed in the sense of the spec when it has fewer than
three `\r\n`-separated lines, or its line 1 contains no occurrence of
`" --> "`. -/
def badBlock (b : List Char) : Prop :=
  (pySplit ('\r' :: '\n' :: []) b).length < 3 ∨
    ∃ l0 l1 rest, pySplit ('\r' :: '\n' :: []) b = l0 :: l1 :: rest ∧
      ∀ i, i < l1.length → ¬ vttSep.isPrefixOf (l1.drop i)

/-- Evaluation of `parseBlock` on a non-header block with at least three
lines: the result is decided by the split of the timing line. -/
theorem parseBlock_eval (b l0 l1 t0 : List Char) (ts : List (List Char))
    (hhd : ¬ (pyStripL b).map Char.toUpper = "WEBVTT".data)
    (hsp : pySplit ('\r' :: '\n' :: []) b = l0 :: l1 :: t0 :: ts) :
    parseBlock b =
      match pySplit vttSep l1 with
      | s :: e :: [] =>
        some ⟨⟨l0⟩, ⟨s⟩, ⟨e⟩, ⟨joinWith (' ' :: []) (t0 :: ts)⟩⟩
      | _ => none := by
  unfold parseBlock
  rw [if_neg hhd, hsp]

/-- A malformed block contributes no record: the `< 3`-lines check fails
the match, and a timing line with no separator makes the two-variable
unpacking raise the (caught) `ValueError`. -/
theorem parseBlock_eq_none_of_badBlock (b : List Char) (hbad : badBlock b) :
    parseBlock b = none := by
  by_cases hhd : (pyStripL b).map Char.toUpper = "WEBVTT".data
  · unfold parseBlock
    rw [if_pos hhd]
  · rcases hbad with hlen | ⟨l0, l1, rest, hsplit, hno⟩
    · unfold parseBlock
      rw [if_neg hhd]
      rcases hsp : pySplit ('\r' :: '\n' :: []) b with _ | ⟨a, _ | ⟨a', _ | ⟨a'', tl⟩⟩⟩
      · rfl
      · rfl
      · rfl
      · rw [hsp] at hlen
        simp only [List.length_cons] at hlen
        omega
    · rcases rest with _ | ⟨t0, ts⟩
      · unfold parseBlock
        rw [if_neg hhd, hsplit]
      · rw [parseBlock_eval b l0 l1 t0 ts hhd hsplit,
          pySplit_no_sep vttSep (by decide) l1 hno]

/-- C5: the caption parser is total by construction (it is a Lean
function into `List Caption`), and a malformed block — fewer than three
lines, or a timing line with no `" --> "` — contributes zero records
while leaving every other block's contribution unchanged. -/
theorem c5_malformed_block_skipped (s : String) (pre post : List (List Char))
    (b : List Char)
    (hsplit : pySplit ('\r' :: '\n' :: '\r' :: '\n' :: []) (pyStripL s.data) =
      pre ++ b :: post)
    (hbad : badBlock b) :
    webvtt_to_json s = (pre ++ post).filterMap parseBlock := by
  unfold webvtt_to_json webvttRecords
  rw [hsplit, List.filterMap_append, List.filterMap_append,
    List.filterMap_cons_none (parseBlock_eq_none_of_badBlock b hbad)]

/-- Witness for C5: a two-line middle block is skipped; the surrounding
blocks parse as if it were absent. -/
theorem c5_malformed_block_skipped_witness :
    webvtt_to_json "1\r\nA --> B\r\nx\r\n\r\nzz\r\n\r\n2\r\nC --> D\r\ny" =
      (["1\r\nA --> B\r\nx".data] ++ ["2\r\nC --> D\r\ny".data]).filterMap parseBlock :=
  c5_malformed_block_skipped "1\r\nA --> B\r\nx\r\n\r\nzz\r\n\r\n2\r\nC --> D\r\ny"
    ["1\r\nA --> B\r\nx".data] ["2\r\nC --> D\r\ny".data] "zz".data
    (by decide) (Or.inl (by decide))

/-- C3 counterexample: a single block whose timing line contains the
separator `" --> "` twice.  The claim says the record's `start`/`end`
come from splitting at the *first* occurrence (explicitly "including
when the separator occurs more than once"), i.e. the output should be
the one record `⟨"1", "00:00", "00:01 --> 00:02", "hello"⟩`.  The code
instead executes `start, end = timing.split(" --> ")`, whose three-part
result makes the unpacking raise `ValueError`, and the block is skipped:
the parser returns zero records. -/
theorem c3_counterexample :
    webvtt_to_json "1\r\n00:00 --> 00:01 --> 00:02\r\nhello" = [] ∧
      ([] : List Caption) ≠ [⟨"1", "00:00", "00:01 --> 00:02", "hello"⟩] := by
  exact ⟨by decide, by decide⟩

/-! ## Well-formed caption blocks, for the amended C3 -/

/-- A physical line of a caption block: non-empty and free of the line
terminator characters. -/
def lineOK (l : List Char) : Prop :=
  l ≠ [] ∧ ∀ c ∈ l, c ≠ '\r' ∧ c ≠ '\n'

instance (l : List Char) : Decidable (lineOK l) := by
  unfold lineOK
  infer_instance

/-- A well-formed caption block, as structured data: an index line, the
two halves of the timing line, and the text lines. -/
structure WfBlock where
  index : List Char
  tStart : List Char
  tEnd : List Char
  texts : List (List Char)

/-- The timing line of a well-formed block. -/
def WfBlock.timing (b : WfBlock) : List Char := b.tStart ++ vttSep ++ b.tEnd

/-- Well-formedness: every line is a real line, there is at least one
text line, and `" --> "` occurs in the timing line only at the split
point (hence exactly once — the case the amended claim covers). -/
def WfBlock.wf (b : WfBlock) : Prop :=
  lineOK b.index ∧
  b.texts ≠ [] ∧ (∀ t ∈ b.texts, lineOK t) ∧
  (∀ c ∈ b.tStart, c ≠ '\r' ∧ c ≠ '\n') ∧
  (∀ c ∈ b.tEnd, c ≠ '\r' ∧ c ≠ '\n') ∧
  (∀ i, i < b.timing.length → vttSep.isPrefixOf (b.timing.drop i) →
    i = b.tStart.length)

instance (b : WfBlock) : Decidable b.wf := by
  unfold WfBlock.wf
  infer_instance

/-- The raw text of a block: its lines joined with CRLF. -/
def WfBlock.render (b : WfBlock) : List Char :=
  joinWith ('\r' :: '\n' :: []) (b.index :: b.timing :: b.texts)

/-- The raw text of a caption track made of the given blocks, separated
by the blank-line delimiter CRLF CRLF. -/
def rawTrack (bs : List WfBlock) : List Char :=
  joinWith ('\r' :: '\n' :: '\r' :: '\n' :: []) (bs.map WfBlock.render)

/-- The record a well-formed block should produce: `start`/`end` are the
two sides of the unique `" --> "` occurrence, the text lines joined by
single spaces. -/
def WfBlock.record (b : WfBlock) : Caption :=
  ⟨⟨b.index⟩, ⟨b.tStart⟩, ⟨b.tEnd⟩, ⟨joinWith (' ' :: []) b.texts⟩⟩

/-- No occurrence of a separator that starts with `'\r'` can begin inside
a stretch of characters free of `'\r'`, whatever follows the stretch. -/
theorem no_match_in_crfree (sep' : List Char) (xs tail : List Char)
    (hxs : ∀ c ∈ xs, c ≠ '\r') :
    ∀ i, i < xs.length → ¬ ('\r' :: sep').isPrefixOf (xs.drop i ++ tail) := by
  intro i hi hp
  have hne : xs.drop i ≠ [] := by
    rw [ne_eq, List.drop_eq_nil_iff]
    omega
  obtain ⟨c, cs, hcs⟩ := List.exists_cons_of_ne_nil hne
  have hc : c ∈ xs := List.mem_of_mem_drop (by rw [hcs]; exact List.mem_cons_self c cs)
  rw [hcs, List.cons_append, List.isPrefixOf_iff_prefix, List.cons_prefix_cons] at hp
  exact hxs c hc hp.1.symm

/-- Splitting CR-free lines joined with CRLF recovers the lines. -/
theorem pySplit_joinWith_crlf (lines : List (List Char)) (hne : lines ≠ [])
    (hcr : ∀ l ∈ lines, ∀ c ∈ l, c ≠ '\r') :
    pySplit ('\r' :: '\n' :: []) (joinWith ('\r' :: '\n' :: []) lines) = lines := by
  induction lines with
  | nil => exact absurd rfl hne
  | cons l ls ih =>
    cases ls with
    | nil =>
      show pySplit ('\r' :: '\n' :: []) l = [l]
      refine pySplit_no_sep _ (by decide) l (fun i hi hp => ?_)
      exact no_match_in_crfree ('\n' :: []) l [] (hcr l (by simp)) i hi
        (by simpa using hp)
    | cons l' ls' =>
      have hj : joinWith ('\r' :: '\n' :: []) (l :: l' :: ls') =
          l ++ ('\r' :: '\n' :: []) ++ joinWith ('\r' :: '\n' :: []) (l' :: ls') := rfl
      rw [hj, pySplit_append_sep _ (by decide) l _
        (no_match_in_crfree ('\n' :: []) l _ (hcr l (by simp)))]
      rw [ih (by simp) (fun m hm => hcr m (by simp [hm]))]

/-- The head of a joined list whose first line is nonempty. -/
theorem joinWith_cons_head (sep : List Char) (c : Char) (l : List Char)
    (ls : List (List Char)) :
    ∃ z, joinWith sep ((c :: l) :: ls) = c :: z := by
  cases ls with
  | nil => exact ⟨l, rfl⟩
  | cons a as => exact ⟨l ++ sep ++ joinWith sep (a :: as), rfl⟩

/-- Inside the rendered lines of a block — all lines nonempty and free
of terminator characters — no occurrence of the blank-line delimiter
CRLF CRLF starts, whatever follows the block. -/
theorem no_delim_in_joined (lines : List (List Char)) (hne : lines ≠ [])
    (hok : ∀ l ∈ lines, lineOK l) (tail : List Char) :
    ∀ i, i < (joinWith ('\r' :: '\n' :: []) lines).length →
      ¬ ('\r' :: '\n' :: '\r' :: '\n' :: []).isPrefixOf
        ((joinWith ('\r' :: '\n' :: []) lines).drop i ++ tail) := by
  induction lines with
  | nil => exact absurd rfl hne
  | cons l ls ih =>
    cases ls with
    | nil =>
      intro i hi
      exact no_match_in_crfree _ l tail
        (fun c hc => ((hok l (by simp)).2 c hc).1) i hi
    | cons l' ls' =>
      intro i hi hp
      have hj : joinWith ('\r' :: '\n' :: []) (l :: l' :: ls') =
          l ++ ('\r' :: '\n' :: joinWith ('\r' :: '\n' :: []) (l' :: ls')) := by
        show l ++ ('\r' :: '\n' :: []) ++ _ = _
        rw [List.append_assoc]
        rfl
      rw [hj] at hi hp
      rcases Nat.lt_or_ge i l.length with h1 | h1
      · rw [List.drop_append_of_le_length (Nat.le_of_lt h1), List.append_assoc] at hp
        exact no_match_in_crfree _ l _
          (fun c hc => ((hok l (by simp)).2 c hc).1) i h1 hp
      · obtain ⟨k, hk⟩ : ∃ k, i = l.length + k := ⟨i - l.length, by omega⟩
        subst hk
        rw [List.drop_append] at hp
        rw [List.length_append] at hi
        have hi' : k < ('\r' :: '\n' :: joinWith ('\r' :: '\n' :: []) (l' :: ls')).length := by
          omega
        cases k with
        | zero =>
          obtain ⟨c', l'', hl'⟩ := List.exists_cons_of_ne_nil (hok l' (by simp)).1
          obtain ⟨z, hz⟩ := joinWith_cons_head ('\r' :: '\n' :: []) c' l'' ls'
          have hcne : c' ≠ '\r' := ((hok l' (by simp)).2 c' (by rw [hl']; simp)).1
          rw [List.drop_zero, hl', hz] at hp
          rw [List.cons_append, List.cons_append, List.cons_append,
            List.isPrefixOf_iff_prefix, List.cons_prefix_cons] at hp
          obtain ⟨-, hp⟩ := hp
          rw [List.cons_prefix_cons] at hp
          obtain ⟨-, hp⟩ := hp
          rw [List.cons_prefix_cons] at hp
          exact hcne hp.1.symm
        | succ k1 =>
          cases k1 with
          | zero =>
            rw [show ('\r' :: '\n' :: joinWith ('\r' :: '\n' :: []) (l' :: ls')).drop 1 =
              '\n' :: joinWith ('\r' :: '\n' :: []) (l' :: ls') from rfl] at hp
            rw [List.cons_append, List.isPrefixOf_iff_prefix,
              List.cons_prefix_cons] at hp
            exact (by decide : ('\r' : Char) ≠ '\n') hp.1
          | succ k' =>
            rw [show ('\r' :: '\n' :: joinWith ('\r' :: '\n' :: []) (l' :: ls')).drop (k' + 1 + 1) =
              (joinWith ('\r' :: '\n' :: []) (l' :: ls')).drop k' from rfl] at hp
            simp only [List.length_cons] at hi'
            exact ih (by simp) (fun m hm => hok m (by simp [hm])) k'
              (by omega) hp

/-- Membership in a joined list. -/
theorem mem_joinWith (sep : List Char) (x : Char) :
    ∀ (ls : List (List Char)) (l : List Char), l ∈ ls → x ∈ l →
      x ∈ joinWith sep ls := by
  intro ls
  induction ls with
  | nil => intro l h _; simp at h
  | cons a as ih =>
    intro l hl hx
    cases as with
    | nil =>
      have hla : l = a := by simpa using hl
      subst hla
      exact hx
    | cons a' as' =>
      rcases List.mem_cons.mp hl with h | h
      · subst h
        show x ∈ l ++ sep ++ joinWith sep (a' :: as')
        simp [hx]
      · show x ∈ a ++ sep ++ joinWith sep (a' :: as')
        have hxj := ih l h hx
        simp [hxj]

/-- Stripping preserves membership of non-whitespace characters. -/
theorem mem_pyStripL (x : Char) (hx : ¬ isPySpace x = true) (xs : List Char)
    (h : x ∈ xs) : x ∈ pyStripL xs := by
  unfold pyStripL
  have step : ∀ (l : List Char), x ∈ l → x ∈ l.dropWhile isPySpace := by
    intro l hl
    have hsplit2 : x ∈ l.takeWhile isPySpace ++ l.dropWhile isPySpace := by
      rw [List.takeWhile_append_dropWhile]
      exact hl
    rcases List.mem_append.mp hsplit2 with h' | h'
    · exact absurd (List.mem_takeWhile_imp h') hx
    · exact h'
  exact List.mem_reverse.mpr (step _ (List.mem_reverse.mpr (step xs h)))

/-- The timing line of a well-formed block is itself a well-formed line. -/
theorem WfBlock.timing_lineOK (b : WfBlock) (hb : b.wf) : lineOK b.timing := by
  obtain ⟨-, -, -, hs, he, -⟩ := hb
  constructor
  · simp [WfBlock.timing, vttSep]
  · intro c hc
    rcases List.mem_append.mp hc with hc1 | hc2
    · rcases List.mem_append.mp hc1 with hc1a | hc1b
      · exact hs c hc1a
      · have hc' : c = ' ' ∨ c = '-' ∨ c = '-' ∨ c = '>' ∨ c = ' ' := by
          simpa [vttSep] using hc1b
        rcases hc' with rfl | rfl | rfl | rfl | rfl <;> exact ⟨by decide, by decide⟩
    · exact he c hc2

/-- Splitting a rendered track at the blank-line delimiter recovers the
rendered blocks. -/
theorem pySplit_rawTrack (bs : List WfBlock) (hne : bs ≠ [])
    (hwf : ∀ b ∈ bs, b.wf) :
    pySplit ('\r' :: '\n' :: '\r' :: '\n' :: []) (rawTrack bs) =
      bs.map WfBlock.render := by
  induction bs with
  | nil => exact absurd rfl hne
  | cons b bs' ih =>
    have hlinesOK : ∀ l ∈ (b.index :: b.timing :: b.texts), lineOK l := by
      intro l hl
      rcases List.mem_cons.mp hl with rfl | hl
      · exact (hwf b (by simp)).1
      rcases List.mem_cons.mp hl with rfl | hl
      · exact WfBlock.timing_lineOK b (hwf b (by simp))
      · exact (hwf b (by simp)).2.2.1 l hl
    cases bs' with
    | nil =>
      show pySplit _ b.render = [b.render]
      refine pySplit_no_sep _ (by decide) b.render (fun i hi hp => ?_)
      exact no_delim_in_joined _ (by simp) hlinesOK [] i hi (by simpa using hp)
    | cons b' bs'' =>
      have hj : rawTrack (b :: b' :: bs'') =
          b.render ++ ('\r' :: '\n' :: '\r' :: '\n' :: []) ++ rawTrack (b' :: bs'') := rfl
      rw [hj, pySplit_append_sep _ (by decide) b.render _
        (no_delim_in_joined _ (by simp) hlinesOK _)]
      rw [ih (by simp) (fun m hm => hwf m (by simp [hm]))]
      rfl

/-- A well-formed block parses to exactly its record, with `start`/`end`
the two sides of the unique separator occurrence. -/
theorem parseBlock_render (b : WfBlock) (hb : b.wf) :
    parseBlock b.render = some b.record := by
  have hsep5 : vttSep.length = 5 := by decide
  obtain ⟨hidx, htne, htxt, hs, he, huniq⟩ := hb
  have hmem : '-' ∈ b.render := by
    apply mem_joinWith _ _ _ b.timing (by simp)
    unfold WfBlock.timing
    simp [vttSep]
  have hhd : ¬ (pyStripL b.render).map Char.toUpper = "WEBVTT".data := by
    intro h
    have h1 : '-' ∈ pyStripL b.render := mem_pyStripL '-' (by decide) _ hmem
    have h2 : Char.toUpper '-' ∈ (pyStripL b.render).map Char.toUpper :=
      List.mem_map_of_mem _ h1
    rw [h] at h2
    simp at h2
  have hcr : ∀ l ∈ (b.index :: b.timing :: b.texts), ∀ c ∈ l, c ≠ '\r' := by
    intro l hl c hc
    rcases List.mem_cons.mp hl with rfl | hl
    · exact (hidx.2 c hc).1
    rcases List.mem_cons.mp hl with rfl | hl
    · exact ((WfBlock.timing_lineOK b ⟨hidx, htne, htxt, hs, he, huniq⟩).2 c hc).1
    · exact ((htxt l hl).2 c hc).1
  have hlines : pySplit ('\r' :: '\n' :: []) b.render =
      b.index :: b.timing :: b.texts :=
    pySplit_joinWith_crlf _ (by simp) hcr
  obtain ⟨t0, ts, hts⟩ := List.exists_cons_of_ne_nil htne
  rw [hts] at hlines
  rw [parseBlock_eval b.render b.index b.timing t0 ts hhd hlines]
  have htd : b.timing = b.tStart ++ vttSep ++ b.tEnd := rfl
  have hno1 : ∀ i, i < b.tStart.length →
      ¬ vttSep.isPrefixOf (b.tStart.drop i ++ (vttSep ++ b.tEnd)) := by
    intro i hi hp
    have hdrop : b.timing.drop i = b.tStart.drop i ++ (vttSep ++ b.tEnd) := by
      rw [htd, List.append_assoc, List.drop_append_of_le_length (Nat.le_of_lt hi)]
    have hlen : i < b.timing.length := by
      rw [htd]
      simp [List.length_append, hsep5]
      omega
    have hiq := huniq i hlen (by rw [hdrop]; exact hp)
    omega
  have hno2 : ∀ j, j < b.tEnd.length → ¬ vttSep.isPrefixOf (b.tEnd.drop j) := by
    intro j hj hp
    have hdrop : b.timing.drop (b.tStart.length + 5 + j) = b.tEnd.drop j := by
      rw [htd]
      rw [show b.tStart ++ vttSep ++ b.tEnd = (b.tStart ++ vttSep) ++ b.tEnd from rfl]
      rw [show b.tStart.length + 5 + j = (b.tStart ++ vttSep).length + j by
        simp [List.length_append, hsep5]]
      exact List.drop_append j
    have hlen : b.tStart.length + 5 + j < b.timing.length := by
      rw [htd]
      simp [List.length_append, hsep5]
      omega
    have hiq := huniq _ hlen (by rw [hdrop]; exact hp)
    omega
  have htiming : pySplit vttSep b.timing = [b.tStart, b.tEnd] := by
    rw [htd, pySplit_append_sep vttSep (by decide) b.tStart b.tEnd hno1,
      pySplit_no_sep vttSep (by decide) b.tEnd hno2]
  rw [htiming]
  unfold WfBlock.record
  rw [hts]

/-- A filterMap in which every element maps to `some` of its image. -/
theorem filterMap_all_some {α β : Type} (f : α → Option β) (g : α → β) :
    ∀ (l : List α), (∀ x ∈ l, f x = some (g x)) → l.filterMap f = l.map g := by
  intro l
  induction l with
  | nil => intro _; rfl
  | cons a as ih =>
    intro h
    rw [List.map_cons, List.filterMap_cons_some (h a (by simp)),
      ih (fun x hx => h x (by simp [hx]))]

/-- C3 (amended): for a raw caption string that partitions into N
well-formed blocks — index line, timing line whose `" --> "` separator
occurs exactly once, one or more text lines, blocks separated by the
blank-line delimiter, no surrounding whitespace — the parser outputs
exactly N records in input-block order, each record's `start`/`end`
being the two sides of that unique (hence first) occurrence.  (The
original claim also covered timing lines with several separator
occurrences; such blocks are in fact skipped by the failed two-variable
unpacking.) -/
theorem c3_amended_wellformed_blocks (bs : List WfBlock)
    (hwf : ∀ b ∈ bs, b.wf)
    (hstrip : pyStripL (rawTrack bs) = rawTrack bs) :
    webvtt_to_json ⟨rawTrack bs⟩ = bs.map WfBlock.record := by
  unfold webvtt_to_json webvttRecords
  rw [show (String.mk (rawTrack bs)).data = rawTrack bs from rfl, hstrip]
  cases bs with
  | nil => decide
  | cons b bs' =>
    rw [pySplit_rawTrack (b :: bs') (by simp) hwf, List.filterMap_map]
    exact filterMap_all_some _ WfBlock.record (b :: bs')
      (fun x hx => parseBlock_render x (hwf x hx))

/-- Witness for the amended C3: two well-formed blocks round-trip to
their two records. -/
theorem c3_amended_wellformed_blocks_witness :
    webvtt_to_json ⟨rawTrack
      [⟨"1".data, "00:00:00.000".data, "00:00:02.000".data, ["Hello world".data]⟩,
       ⟨"2".data, "00:00:02.000".data, "00:00:04.000".data, ["Second line".data]⟩]⟩ =
      [⟨"1", "00:00:00.000", "00:00:02.000", "Hello world"⟩,
       ⟨"2", "00:00:02.000", "00:00:04.000", "Second line"⟩] := by
  rw [c3_amended_wellformed_blocks _ (by decide) (by decide)]
  decide

/-! ## The OAuth token cache (`ZoomOAuth`, source lines 12–59) -/

/-- The credential row read by `ZoomOAuth.get_config`; only its presence
matters to the token logic. -/
structure ZoomClientConfig where
  zoom_account_id : String
  zoom_client_id : String
  zoom_client_secret : String
deriving Repr, DecidableEq

/-- The mutable token cache of a `ZoomOAuth` instance
(`self.access_token`, `self.token_expiry`). -/
structure OAuthState where
  access_token : Option String
  token_expiry : Option Nat
deriving Repr, DecidableEq

/-- Python exceptions escaping the embedded functions.  HTTP errors
carry the response status and the decoded `code` field of the JSON error
body (when one is consulted). -/
inductive PyError where
  | httpError (status : Nat) (code : Option Int)
  | transportError
  | valueError (message : String)
  | keyError (key : String)
  | attrError
deriving Repr, DecidableEq

/-- Outcome of the token-exchange POST (source line 44): a parsed body
with `access_token` and `expires_in`, an HTTP-status failure, or a
network-level failure. -/
inductive PostResult where
  | success (access_token : String) (expires_in : Nat)
  | httpError (status : Nat)
  | transportError
deriving Repr, DecidableEq

instance {ε α : Type} [DecidableEq ε] [DecidableEq α] :
    DecidableEq (Except ε α) := fun x y =>
  match x, y with
  | .ok a, .ok b =>
    if h : a = b then isTrue (by rw [h])
    else isFalse (fun he => by cases he; exact h rfl)
  | .error a, .error b =>
    if h : a = b then isTrue (by rw [h])
    else isFalse (fun he => by cases he; exact h rfl)
  | .ok _, .error _ => isFalse (fun he => by cases he)
  | .error _, .ok _ => isFalse (fun he => by cases he)

/-- Result of one `get_access_token` call: the outcome (token returned
and instance state after the call, or the exception raised), plus how
many token-exchange POSTs and configuration reads the call performed. -/
structure TokenCallResult where
  outcome : Except PyError (String × OAuthState)
  posts : Nat
  configReads : Nat
deriving Repr, DecidableEq

/-- The refresh path of `get_access_token` (source lines 32–59): read
the configuration (raising `ValueError` if missing), POST the
client-credentials grant, and either cache the fresh token with expiry
`now + expires_in`, raise a sanitised `ValueError` on a 400, or
propagate the HTTP/transport error. -/
def refreshToken (now : Nat) (config : Option ZoomClientConfig)
    (post : PostResult) : TokenCallResult :=
  match config with
  | none =>
    ⟨.error (.valueError "Zoom client configuration not found in the database"), 0, 1⟩
  | some _ =>
    match post with
    | .success tok expires_in =>
      ⟨.ok (tok, ⟨some tok, some (now + expires_in)⟩), 1, 1⟩
    | .httpError status =>
      if status = 400 then
        ⟨.error (.valueError "Failed to obtain Zoom access token. Please check your Zoom credentials."), 1, 1⟩
      else
        ⟨.error (.httpError status none), 1, 1⟩
    | .transportError => ⟨.error .transportError, 1, 1⟩

/-- `ZoomOAuth.get_access_token` (source lines 24–59).  The cached token
is returned only when the Python condition
`self.access_token and self.token_expiry and datetime.now() < self.token_expiry`
holds — note that an empty-string token is falsy in Python.  `now`
stands for `datetime.now()` during the call, `config` for what
`ZoomClientConfig.query.first()` would return, and `post` for the
outcome of the token-exchange POST, consulted only on the refresh
path. -/
def get_access_token (st : OAuthState) (now : Nat)
    (config : Option ZoomClientConfig) (post : PostResult) : TokenCallResult :=
  match st.access_token, st.token_expiry with
  | some tok, some expiry =>
    if tok ≠ "" ∧ now < expiry then ⟨.ok (tok, st), 0, 0⟩
    else refreshToken now config post
  | some _, none => refreshToken now config post
  | none, _ => refreshToken now config post

/-- C6: starting from an empty cache, a first call at `t0` performs the
single token-exchange POST and caches the token with expiry
`t0 + expires_in`; a second call strictly before that expiry performs no
POST and returns the same token — so the two calls perform exactly one
POST between them — and a call at or after the expiry performs a fresh
POST and replaces the cached token and expiry. -/
theorem c6_token_cache (t0 t1 t2 : Nat) (cfg : ZoomClientConfig)
    (tok tok2 : String) (exp exp2 : Nat)
    (htok : tok ≠ "") (hvalid : t1 < t0 + exp) (hexpired : t0 + exp ≤ t2) :
    get_access_token ⟨none, none⟩ t0 (some cfg) (.success tok exp) =
      ⟨.ok (tok, ⟨some tok, some (t0 + exp)⟩), 1, 1⟩ ∧
    get_access_token ⟨some tok, some (t0 + exp)⟩ t1 (some cfg) (.success tok2 exp2) =
      ⟨.ok (tok, ⟨some tok, some (t0 + exp)⟩), 0, 0⟩ ∧
    get_access_token ⟨some tok, some (t0 + exp)⟩ t2 (some cfg) (.success tok2 exp2) =
      ⟨.ok (tok2, ⟨some tok2, some (t2 + exp2)⟩), 1, 1⟩ := by
  refine ⟨rfl, ?_, ?_⟩
  · show (if tok ≠ "" ∧ t1 < t0 + exp then _ else _) = _
    rw [if_pos ⟨htok, hvalid⟩]
  · show (if tok ≠ "" ∧ t2 < t0 + exp then _ else _) = _
    rw [if_neg (fun h => absurd h.2 (by omega))]
    rfl

/-- Witness for C6 at concrete times and tokens. -/
theorem c6_token_cache_witness :
    get_access_token ⟨none, none⟩ 0 (some ⟨"a", "b", "c"⟩) (.success "T" 10) =
      ⟨.ok ("T", ⟨some "T", some (0 + 10)⟩), 1, 1⟩ ∧
    get_access_token ⟨some "T", some (0 + 10)⟩ 5 (some ⟨"a", "b", "c"⟩) (.success "U" 7) =
      ⟨.ok ("T", ⟨some "T", some (0 + 10)⟩), 0, 0⟩ ∧
    get_access_token ⟨some "T", some (0 + 10)⟩ 10 (some ⟨"a", "b", "c"⟩) (.success "U" 7) =
      ⟨.ok ("U", ⟨some "U", some (10 + 7)⟩), 1, 1⟩ :=
  c6_token_cache 0 5 10 ⟨"a", "b", "c"⟩ "T" "U" 10 7 (by decide) (by decide)
    (by decide)

/-- C10 counterexample: the state holds a cached (empty-string) token
with an unexpired expiry, yet the call reads the configuration store
(one configuration read) and raises the missing-configuration error —
because Python's truthiness check treats the empty-string token as
absent.  The claim maintained that for *every* state with a cached,
unexpired token the call succeeds with no configuration read. -/
theorem c10_counterexample :
    get_access_token ⟨some "", some 10⟩ 5 none .transportError =
      ⟨.error (.valueError "Zoom client configuration not found in the database"),
        0, 1⟩ := by
  decide

/-- C10 (amended): if a cached *non-empty* token exists and `now` is
strictly before its expiry, the call returns the cached token unchanged,
performs no POST and no configuration read, and so succeeds even when
the credentials configuration has been removed (`config` arbitrary,
including `none`): the missing-configuration error can only arise on the
refresh path. -/
theorem c10_amended_cached_token_no_config_read (tok : String) (e now : Nat)
    (htok : tok ≠ "") (hnow : now < e)
    (config : Option ZoomClientConfig) (post : PostResult) :
    get_access_token ⟨some tok, some e⟩ now config post =
      ⟨.ok (tok, ⟨some tok, some e⟩), 0, 0⟩ := by
  show (if tok ≠ "" ∧ now < e then _ else _) = _
  rw [if_pos ⟨htok, hnow⟩]

/-- Witness for the amended C10: configuration absent, cache valid. -/
theorem c10_amended_cached_token_no_config_read_witness :
    get_access_token ⟨some "T", some 10⟩ 3 none .transportError =
      ⟨.ok ("T", ⟨some "T", some 10⟩), 0, 0⟩ :=
  c10_amended_cached_token_no_config_read "T" 10 3 (by decide) (by decide)
    none .transportError

/-! ## The Zoom REST API boundary and the exposed operations -/

/-- A recording file entry (`recording_files` element); `download_url`
is `none` when the key is absent from the JSON object. -/
structure RecFile where
  id : String
  file_type : String
  recording_type : String
  download_url : Option String
deriving Repr, DecidableEq

/-- A recording / meeting object as returned by the listing endpoints. -/
structure Recording where
  id : String
  uuid : String
  topic : String
  start_time : String
  duration : Nat
  recording_files : List RecFile
deriving Repr, DecidableEq

/-- A tracking field of a meeting report. -/
structure TrackingField where
  field : String
  value : String
deriving Repr, DecidableEq

/-- A meeting report (`report/meetings/...`). -/
structure MeetingReport where
  tracking_fields : List TrackingField
deriving Repr, DecidableEq

/-- Outcome of one REST call as surfaced by
`ZoomClient._make_request` / `requests`: the decoded JSON value, an
`HTTPError` from `raise_for_status` (response status plus the `code`
field of the decoded error body), or a network-level `requests`
exception that is *not* an `HTTPError`. -/
inductive ApiResult (α : Type) where
  | ok (val : α)
  | httpError (status : Nat) (code : Option Int)
  | transportError
deriving Repr, DecidableEq

/-- The deterministic behaviour of the Zoom API during one operation,
one field per endpoint the source consults: `recordings u a b` is
`GET users/{u}/recordings?from=a&to=b` (dates as day numbers),
`userLookup` is `GET users/{identifier}`, `report` is
`GET report/meetings/{id-or-uuid}`, `meetingRecordings` is
`GET meetings/{id}/recordings`, `recordingLookup` is
`GET recordings/{id}`, and `download` is the transcript download, in
which `get_transcript_content` (source lines 392–403) converts any
`requests` failure to `None`. -/
structure ZoomApi where
  recordings : String → Int → Int → ApiResult (List Recording)
  userLookup : String → ApiResult String
  report : String → ApiResult MeetingReport
  meetingRecordings : String → ApiResult Recording
  recordingLookup : String → ApiResult Recording
  download : String → Option String

/-- `str(e)` of a raised exception, as interpolated into the failure
payloads.  The exact rendering is irrelevant to every claim; it only
needs to be a deterministic function of the exception. -/
def errMsg : PyError → String
  | .httpError status _ => "HTTPError " ++ toString status
  | .transportError => "ConnectionError"
  | .valueError m => m
  | .keyError k => "KeyError " ++ k
  | .attrError => "AttributeError"

/-- The failure payload `jsonify({"error": ..., "message": ...}), 500`
returned by the `except Exception` handlers: the body fields together
with the HTTP status code attached to the returned tuple. -/
structure ErrorPayload where
  error : String
  message : String
  status : Nat
deriving Repr, DecidableEq

/-- Result of an exposed operation: a success payload, or the uniform
error payload with its attached status code. -/
inductive OpOutcome (α : Type) where
  | ok (val : α)
  | failure (p : ErrorPayload)
deriving Repr, DecidableEq

/-- Context of one operation: `authError` is `some msg` when
`verify_access_key` aborts or `get_zoom_client` raises before any API
call (message `msg`); `api` is the API oracle. -/
structure OpContext where
  authError : Option String
  api : ZoomApi

/-- The payload built by every `except Exception` handler. -/
def internalError (msg : String) : ErrorPayload :=
  ⟨"Internal Server Error", msg, 500⟩

/-- A transcript operation's successful payload: the parsed records, or
`{"transcript": None, "message": ...}`. -/
inductive TranscriptValue where
  | transcript (records : List Caption)
  | noTranscript (message : String)
deriving Repr, DecidableEq

/-- `get_meeting_recordings` (source lines 119–132). -/
def get_meeting_recordings (ctx : OpContext) (meeting_id : String) :
    OpOutcome Recording :=
  match ctx.authError with
  | some msg => .failure (internalError msg)
  | none =>
    match ctx.api.meetingRecordings meeting_id with
    | .ok r => .ok r
    | .httpError status code =>
      .failure (internalError (errMsg (.httpError status code)))
    | .transportError => .failure (internalError (errMsg .transportError))

/-- `get_meeting_transcript` (source lines 135–169).  It delegates to
`get_meeting_recordings`; when that returned the error tuple, the
subsequent `recordings.get(...)` raises `AttributeError` on the tuple,
converted by the handler into the uniform payload.  A missing or empty
(falsy) `download_url` yields the distinct no-URL message; a failed
download yields the distinct failed-download message. -/
def get_meeting_transcript (ctx : OpContext) (meeting_id : String) :
    OpOutcome TranscriptValue :=
  match ctx.authError with
  | some msg => .failure (internalError msg)
  | none =>
    match get_meeting_recordings ctx meeting_id with
    | .failure _ => .failure (internalError (errMsg .attrError))
    | .ok recording =>
      match recording.recording_files.find? (fun f => f.file_type == "TRANSCRIPT") with
      | none => .ok (.noTranscript "No transcript found")
      | some tf =>
        match tf.download_url with
        | none => .ok (.noTranscript "No transcript URL available")
        | some url =>
          if url = "" then .ok (.noTranscript "No transcript URL available")
          else
            match ctx.api.download url with
            | none => .ok (.noTranscript "Failed to retrieve transcript content")
            | some content => .ok (.transcript (webvtt_to_json content))

/-- `get_recording_transcript` (source lines 350–389).  The inner
`except HTTPError` returns "Recording not found" on a 404 and re-raises
otherwise; a transcript file without a `download_url` key raises
`KeyError` (subscript access, source line 374), caught only by the
outer `except Exception`. -/
def get_recording_transcript (ctx : OpContext) (recording_id : String) :
    OpOutcome TranscriptValue :=
  match ctx.authError with
  | some msg => .failure (internalError msg)
  | none =>
    match ctx.api.recordingLookup recording_id with
    | .httpError status code =>
      if status = 404 then .ok (.noTranscript "Recording not found")
      else .failure (internalError (errMsg (.httpError status code)))
    | .transportError => .failure (internalError (errMsg .transportError))
    | .ok recording =>
      match recording.recording_files.find? (fun f => f.file_type == "TRANSCRIPT") with
      | none => .ok (.noTranscript "No transcript available")
      | some tf =>
        match tf.download_url with
        | none => .failure (internalError (errMsg (.keyError "download_url")))
        | some url =>
          match ctx.api.download url with
          | none => .ok (.noTranscript "Failed to retrieve transcript")
          | some content => .ok (.transcript (webvtt_to_json content))

/-- Outcome of the discovery loop of `get_instructor_recordings`. -/
inductive DiscoverOutcome where
  | found (recs : List Recording)
  | noUser
  | raised (e : PyError)
deriving Repr, DecidableEq

/-- The windowed discovery loop (source lines 195–243): starting from
`current` and stepping back 30 days while `current ≥ startDay`
(`startDay` models `datetime(2020, 1, 1)`), query the window
`[current − 30, current]`; on a 404, resolve the identifier via
`GET users/{identifier}` and retry the same window with the resolved ID;
if resolution or the retry fails with an `HTTPError` (any status),
return the empty-result outcome
(`{"recordings": [], "message": "No Zoom user found"}`).  Any non-404
HTTP error on the window query, and any transport error, propagates.
`fuel` forces structural recursion; the wrapper passes more fuel than
the loop can consume, and exhausted fuel (unreachable) returns the
accumulator. -/
def discoverFromF (api : ZoomApi) (instructor_id : String) (startDay : Int) :
    Nat → Int → List Recording → DiscoverOutcome
  | 0, _, acc => .found acc
  | fuel + 1, current, acc =>
    if startDay ≤ current then
      match api.recordings instructor_id (current - 30) current with
      | .ok resp =>
        discoverFromF api instructor_id startDay fuel (current - 30) (acc ++ resp)
      | .httpError status code =>
        if status = 404 then
          match api.userLookup instructor_id with
          | .ok user_id =>
            match api.recordings user_id (current - 30) current with
            | .ok resp2 =>
              discoverFromF api instructor_id startDay fuel (current - 30) (acc ++ resp2)
            | .httpError _ _ => .noUser
            | .transportError => .raised .transportError
          | .httpError _ _ => .noUser
          | .transportError => .raised .transportError
        else .raised (.httpError status code)
      | .transportError => .raised .transportError
    else .found acc

/-- Projection of a recording to the reduced view built at source lines
282–298 / 318–334: only MP4/TRANSCRIPT files are kept. -/
def projectRecording (r : Recording) : Recording :=
  ⟨r.id, r.uuid, r.topic, r.start_time, r.duration,
    r.recording_files.filter
      (fun f => f.file_type == "MP4" || f.file_type == "TRANSCRIPT")⟩

/-- Outcome of the per-recording body of the filtering loop. -/
inductive FilterStep where
  | includeRec (info : Recording)
  | skip
  | raised (e : PyError)
deriving Repr, DecidableEq

/-- The course-match decision once a meeting report was obtained
(source lines 279–337): a falsy course filter (`None` or empty) includes
every recording; otherwise the `"Canvas Course"` tracking field must
exist and equal the course ID exactly (string comparison). -/
def decideInclude (course_id : Option String) (r : Recording)
    (rep : MeetingReport) : FilterStep :=
  match course_id with
  | none => .includeRec (projectRecording r)
  | some cid =>
    if cid = "" then .includeRec (projectRecording r)
    else
      match rep.tracking_fields.find? (fun tf => tf.field == "Canvas Course") with
      | some tf =>
        if tf.value = cid then .includeRec (projectRecording r) else .skip
      | none => .skip

/-- The per-recording body of the filtering loop (source lines 253–277):
fetch `report/meetings/{id}`; on an `HTTPError` with status 404 whose
body code is 3001, retry with the UUID, skipping the recording if the
retry raises an `HTTPError`; on any other `HTTPError`, skip the
recording.  A transport error is not an `HTTPError`, so neither
`except HTTPError` clause catches it: it propagates and aborts the whole
loop. -/
def processRecording (api : ZoomApi) (course_id : Option String)
    (r : Recording) : FilterStep :=
  match api.report r.id with
  | .ok rep => decideInclude course_id r rep
  | .httpError status code =>
    if status = 404 ∧ code = some 3001 then
      match api.report r.uuid with
      | .ok rep => decideInclude course_id r rep
      | .httpError _ _ => .skip
      | .transportError => .raised .transportError
    else .skip
  | .transportError => .raised .transportError

/-- The filtering loop over the discovered recordings (source lines
247–337): one step per recording, a raised exception aborting the rest
of the loop. -/
def filterRecordings (api : ZoomApi) (course_id : Option String) :
    List Recording → Except PyError (List Recording)
  | [] => .ok []
  | r :: rest =>
    match processRecording api course_id r with
    | .raised e => .error e
    | .skip => filterRecordings api course_id rest
    | .includeRec info =>
      match filterRecordings api course_id rest with
      | .ok tailInfos => .ok (info :: tailInfos)
      | .error e => .error e

/-- Successful payload of `get_instructor_recordings`: the filtered
recordings, or the early
`{"recordings": [], "message": "No Zoom user found"}` return. -/
inductive InstructorValue where
  | results (recordings : List Recording)
  | noUserFound
deriving Repr, DecidableEq

/-- `get_instructor_recordings` (source lines 172–347), with `startDay`
and `nowDay` standing for `datetime(2020, 1, 1)` and `datetime.now()` as
day numbers.  The discovery fuel `(nowDay − startDay).toNat + 1` always
exceeds the number of 30-day steps the loop can take. -/
def get_instructor_recordings (ctx : OpContext) (instructor_id : String)
    (course_id : Option String) (startDay nowDay : Int) :
    OpOutcome InstructorValue :=
  match ctx.authError with
  | some msg => .failure (internalError msg)
  | none =>
    match discoverFromF ctx.api instructor_id startDay
        ((nowDay - startDay).toNat + 1) nowDay [] with
    | .noUser => .ok .noUserFound
    | .raised e => .failure (internalError (errMsg e))
    | .found recs =>
      match filterRecordings ctx.api course_id recs with
      | .error e => .failure (internalError (errMsg e))
      | .ok infos => .ok (.results infos)

/-! ## Sample data for concrete scenarios -/

/-- A sample recording without files. -/
def rec1 : Recording := ⟨"m1", "uu1", "Topic one", "2024-01-01", 60, []⟩

/-- A second sample recording without files. -/
def rec2 : Recording := ⟨"m2", "uu2", "Topic two", "2024-01-02", 30, []⟩

/-- A sample recording whose only file is a transcript with no
`download_url` key. -/
def recNoUrl : Recording :=
  ⟨"r1", "uu3", "Topic three", "2024-01-03", 45,
    [⟨"f1", "TRANSCRIPT", "audio_transcript", none⟩]⟩

/-- A neutral API oracle. -/
def apiNull : ZoomApi :=
  ⟨fun _ _ _ => .ok [], fun _ => .ok "", fun _ => .ok ⟨[]⟩,
    fun _ => .httpError 404 none, fun _ => .httpError 404 none, fun _ => none⟩

/-- Oracle for C1: discovery finds `rec1` and `rec2`; fetching the
report for `rec1` fails at the network level, `rec2`'s report is fine. -/
def apiC1 : ZoomApi :=
  ⟨fun _ _ _ => .ok [rec1, rec2], fun _ => .ok "u",
    fun m => if m == "m1" then .transportError else .ok ⟨[]⟩,
    fun _ => .httpError 404 none, fun _ => .httpError 404 none, fun _ => none⟩

/-- Oracle for the amended C1: `rec1`'s report fails with a plain HTTP
500, `rec2`'s report is fine. -/
def apiC1W : ZoomApi :=
  ⟨fun _ _ _ => .ok [rec1, rec2], fun _ => .ok "u",
    fun m => if m == "m1" then .httpError 500 none else .ok ⟨[]⟩,
    fun _ => .httpError 404 none, fun _ => .httpError 404 none, fun _ => none⟩

/-- Oracle for C2: every window query 404s and the identifier-resolution
request fails with a 400. -/
def apiC2 : ZoomApi :=
  ⟨fun _ _ _ => .httpError 404 none, fun _ => .httpError 400 none,
    fun _ => .ok ⟨[]⟩, fun _ => .httpError 404 none,
    fun _ => .httpError 404 none, fun _ => none⟩

/-- Oracle for C7: queries under the original identifier 404, the
identifier resolves to `"resolved"`, and queries under the resolved ID
succeed with `rec1`. -/
def apiC7 : ZoomApi :=
  ⟨fun u _ _ => if u == "resolved" then .ok [rec1] else .httpError 404 none,
    fun _ => .ok "resolved", fun _ => .ok ⟨[]⟩,
    fun _ => .httpError 404 none, fun _ => .httpError 404 none, fun _ => none⟩

/-- Oracle for C8: `recordings/{id}` returns `recNoUrl`. -/
def apiC8 : ZoomApi :=
  ⟨fun _ _ _ => .ok [], fun _ => .ok "", fun _ => .ok ⟨[]⟩,
    fun _ => .ok recNoUrl, fun _ => .ok recNoUrl, fun _ => none⟩

/-- A sample recording whose only file is a transcript with a download
URL. -/
def recUrl : Recording :=
  ⟨"r2", "uu4", "Topic four", "2024-01-04", 50,
    [⟨"f2", "TRANSCRIPT", "audio_transcript", some "https://dl/f2"⟩]⟩

/-- Oracle for the download-failed point of C8: `recordings/{id}`
returns `recUrl` and the transcript download fails. -/
def apiC8b : ZoomApi :=
  ⟨fun _ _ _ => .ok [], fun _ => .ok "", fun _ => .ok ⟨[]⟩,
    fun _ => .ok recUrl, fun _ => .ok recUrl, fun _ => none⟩

/-! ## C1: transport errors in the per-recording report loop -/

/-- C1 counterexample: discovery finds `rec1` and `rec2`; the report
fetch for `rec1` fails with a network-level transport error.  The claim
says only `rec1` is skipped and `rec2`'s inclusion is unchanged (the
operation would return `rec2`'s projection); in the code the transport
error is not an `HTTPError`, escapes both `except HTTPError` clauses,
and aborts the whole batch as the uniform error payload. -/
theorem c1_counterexample :
    get_instructor_recordings ⟨none, apiC1⟩ "inst" none 0 0 =
      .failure ⟨"Internal Server Error", "ConnectionError", 500⟩ ∧
    get_instructor_recordings ⟨none, apiC1⟩ "inst" none 0 0 ≠
      .ok (.results [projectRecording rec2]) := by
  exact ⟨by decide, by decide⟩

/-- C1 (amended): in the per-recording report loop, an HTTP-status
error — any status other than a 404 carrying body code 3001, or a
404/3001 whose UUID retry itself fails with an HTTP error — causes
exactly that one recording to be skipped, leaving every other
recording's inclusion decision unchanged; a network-level transport
error, not being an `HTTPError`, is not caught there: it propagates and
aborts the whole batch. -/
theorem c1_amended_report_errors :
    (∀ (api : ZoomApi) (cid : Option String) (pre post : List Recording)
      (r : Recording), processRecording api cid r = .skip →
      filterRecordings api cid (pre ++ r :: post) =
        filterRecordings api cid (pre ++ post)) ∧
    (∀ (api : ZoomApi) (cid : Option String) (r : Recording) (s : Nat)
      (c : Option Int), api.report r.id = .httpError s c →
      (s = 404 ∧ c = some 3001 →
        ∃ s' c', api.report r.uuid = .httpError s' c') →
      processRecording api cid r = .skip) ∧
    (∀ (api : ZoomApi) (cid : Option String) (r : Recording)
      (rest : List Recording), api.report r.id = .transportError →
      filterRecordings api cid (r :: rest) = .error .transportError) := by
  refine ⟨?_, ?_, ?_⟩
  · intro api cid pre post r hskip
    induction pre with
    | nil => simp [filterRecordings, hskip]
    | cons p pre ih =>
      simp only [List.cons_append, filterRecordings, List.append_eq]
      rw [ih]
  · intro api cid r s c hrep hretry
    by_cases hc : s = 404 ∧ c = some 3001
    · obtain ⟨s', c', huuid⟩ := hretry hc
      simp [processRecording, hrep, huuid, hc]
    · simp [processRecording, hrep, hc]
  · intro api cid r rest htrans
    simp [filterRecordings, processRecording, htrans]

/-- Witness for the amended C1: a 500 on `rec1`'s report skips exactly
`rec1`; a transport error on `rec1`'s report aborts the batch. -/
theorem c1_amended_report_errors_witness :
    filterRecordings apiC1W none ([rec2] ++ rec1 :: []) =
      filterRecordings apiC1W none ([rec2] ++ []) ∧
    filterRecordings apiC1 none (rec1 :: [rec2]) =
      .error .transportError :=
  ⟨c1_amended_report_errors.1 apiC1W none [rec2] [] rec1
      (c1_amended_report_errors.2.1 apiC1W none rec1 500 none rfl
        (fun h => absurd h.1 (by decide))),
    c1_amended_report_errors.2.2 apiC1 none rec1 [rec2] rfl⟩

/-! ## C2: user-not-found ends discovery with the empty outcome -/

/-- C2: if a window query 404s and the identifier-resolution request
also fails with an HTTP error (any status), discovery immediately
returns the empty-result outcome whatever has been accumulated so far
(`acc` is arbitrary: recordings from earlier windows are discarded, not
returned as a partial list), and at the operation level this surfaces as
the success payload `{"recordings": [], "message": "No Zoom user found"}` —
never a raised error. -/
theorem c2_user_not_found_empty_result :
    (∀ (api : ZoomApi) (instr : String) (startDay : Int) (fuel : Nat)
      (current : Int) (acc : List Recording) (c : Option Int) (s' : Nat)
      (c' : Option Int),
      startDay ≤ current →
      api.recordings instr (current - 30) current = .httpError 404 c →
      api.userLookup instr = .httpError s' c' →
      discoverFromF api instr startDay (fuel + 1) current acc = .noUser) ∧
    (∀ (ctx : OpContext) (instr : String) (course_id : Option String)
      (startDay nowDay : Int),
      ctx.authError = none →
      discoverFromF ctx.api instr startDay ((nowDay - startDay).toNat + 1)
        nowDay [] = .noUser →
      get_instructor_recordings ctx instr course_id startDay nowDay =
        .ok .noUserFound) := by
  constructor
  · intro api instr startDay fuel current acc c s' c' hcur h404 hlook
    simp [discoverFromF, hcur, h404, hlook]
  · intro ctx instr course_id startDay nowDay hauth hdisc
    simp [get_instructor_recordings, hauth, hdisc]

/-- Witness for C2: every window 404s and resolution fails with a 400;
the operation returns the empty-result outcome. -/
theorem c2_user_not_found_empty_result_witness :
    get_instructor_recordings ⟨none, apiC2⟩ "inst" none 0 0 =
      .ok .noUserFound :=
  c2_user_not_found_empty_result.2 ⟨none, apiC2⟩ "inst" none 0 0 rfl
    (c2_user_not_found_empty_result.1 apiC2 "inst" 0 0 0 [] none 400 none
      (by decide) rfl rfl)

/-! ## C7: resolved retry and continued scanning -/

/-- C7: when a window query 404s and the identifier resolution succeeds,
that same window is retried under the resolved user ID, the retry's
recordings are appended to the accumulated result, and the loop
continues with the next 30-day window toward the epoch — the scan does
not stop after the resolved retry. -/
theorem c7_resolved_retry_continues
    (api : ZoomApi) (instr uid : String) (startDay current : Int)
    (fuel : Nat) (acc recs2 : List Recording) (c : Option Int)
    (hcur : startDay ≤ current)
    (h404 : api.recordings instr (current - 30) current = .httpError 404 c)
    (hres : api.userLookup instr = .ok uid)
    (hretry : api.recordings uid (current - 30) current = .ok recs2) :
    discoverFromF api instr startDay (fuel + 1) current acc =
      discoverFromF api instr startDay fuel (current - 30) (acc ++ recs2) := by
  simp [discoverFromF, hcur, h404, hres, hretry]

/-- Witness for C7 on the first window: the 404 is retried under the
resolved ID and the loop continues at `current − 30` with `rec1`
accumulated. -/
theorem c7_resolved_retry_continues_witness :
    discoverFromF apiC7 "inst" 0 1 0 [] =
      discoverFromF apiC7 "inst" 0 0 (0 - 30) ([] ++ [rec1]) :=
  c7_resolved_retry_continues apiC7 "inst" "resolved" 0 0 0 [] [rec1] none
    (by decide) rfl rfl rfl

/-! ## C8: transcript availability messages -/

/-- C8 counterexample: `get_recording_transcript` on a recording whose
transcript file has no `download_url` key does not produce a distinct
no-URL message — the subscript access raises `KeyError`, which the
handler converts into the uniform error payload. -/
theorem c8_counterexample :
    get_recording_transcript ⟨none, apiC8⟩ "r1" =
      .failure ⟨"Internal Server Error", "KeyError download_url", 500⟩ := by
  decide

/-- C8 (amended): a recording without a TRANSCRIPT-typed file yields the
no-transcript result in both transcript operations, never an error
payload; `get_meeting_transcript` produces three pairwise-distinct
messages at its three failure points (no transcript file, no download
URL, download failed); `get_recording_transcript` produces distinct
messages for its no-file and download-failed points, but a transcript
file *without* a download URL makes it raise `KeyError`, surfacing as
the uniform error payload rather than a third message. -/
theorem c8_amended_transcript_messages :
    (∀ (ctx : OpContext) (mid : String) (rec : Recording),
      ctx.authError = none →
      ctx.api.meetingRecordings mid = .ok rec →
      rec.recording_files.find? (fun f => f.file_type == "TRANSCRIPT") = none →
      get_meeting_transcript ctx mid = .ok (.noTranscript "No transcript found")) ∧
    (∀ (ctx : OpContext) (rid : String) (rec : Recording),
      ctx.authError = none →
      ctx.api.recordingLookup rid = .ok rec →
      rec.recording_files.find? (fun f => f.file_type == "TRANSCRIPT") = none →
      get_recording_transcript ctx rid =
        .ok (.noTranscript "No transcript available")) ∧
    (∀ (ctx : OpContext) (mid : String) (rec : Recording) (tf : RecFile),
      ctx.authError = none →
      ctx.api.meetingRecordings mid = .ok rec →
      rec.recording_files.find? (fun f => f.file_type == "TRANSCRIPT") = some tf →
      tf.download_url = none →
      get_meeting_transcript ctx mid =
        .ok (.noTranscript "No transcript URL available")) ∧
    (∀ (ctx : OpContext) (mid : String) (rec : Recording) (tf : RecFile)
      (url : String),
      ctx.authError = none →
      ctx.api.meetingRecordings mid = .ok rec →
      rec.recording_files.find? (fun f => f.file_type == "TRANSCRIPT") = some tf →
      tf.download_url = some url → url ≠ "" →
      ctx.api.download url = none →
      get_meeting_transcript ctx mid =
        .ok (.noTranscript "Failed to retrieve transcript content")) ∧
    (("No transcript found" ≠ "No transcript URL available") ∧
      ("No transcript found" ≠ "Failed to retrieve transcript content") ∧
      ("No transcript URL available" ≠ "Failed to retrieve transcript content")) ∧
    (∀ (ctx : OpContext) (rid : String) (rec : Recording) (tf : RecFile),
      ctx.authError = none →
      ctx.api.recordingLookup rid = .ok rec →
      rec.recording_files.find? (fun f => f.file_type == "TRANSCRIPT") = some tf →
      tf.download_url = none →
      get_recording_transcript ctx rid =
        .failure ⟨"Internal Server Error", errMsg (.keyError "download_url"), 500⟩) ∧
    (∀ (ctx : OpContext) (rid : String) (rec : Recording) (tf : RecFile)
      (url : String),
      ctx.authError = none →
      ctx.api.recordingLookup rid = .ok rec →
      rec.recording_files.find? (fun f => f.file_type == "TRANSCRIPT") = some tf →
      tf.download_url = some url →
      ctx.api.download url = none →
      get_recording_transcript ctx rid =
        .ok (.noTranscript "Failed to retrieve transcript")) ∧
    ("No transcript available" ≠ "Failed to retrieve transcript") := by
  refine ⟨?_, ?_, ?_, ?_, ⟨by decide, by decide, by decide⟩, ?_, ?_, by decide⟩
  · intro ctx mid rec hauth hrec hfind
    simp [get_meeting_transcript, get_meeting_recordings, hauth, hrec, hfind]
  · intro ctx rid rec hauth hrec hfind
    simp [get_recording_transcript, hauth, hrec, hfind]
  · intro ctx mid rec tf hauth hrec hfind hdu
    simp [get_meeting_transcript, get_meeting_recordings, hauth, hrec, hfind, hdu]
  · intro ctx mid rec tf url hauth hrec hfind hdu hne hdl
    simp [get_meeting_transcript, get_meeting_recordings, hauth, hrec, hfind,
      hdu, hne, hdl]
  · intro ctx rid rec tf hauth hrec hfind hdu
    simp [get_recording_transcript, hauth, hrec, hfind, hdu, internalError]
  · intro ctx rid rec tf url hauth hrec hfind hdu hdl
    simp [get_recording_transcript, hauth, hrec, hfind, hdu, hdl]

/-- Witness for the amended C8: `rec1` has no transcript file (the
meeting operation yields its no-transcript message), `recNoUrl`'s
transcript file has no URL (`get_recording_transcript` yields the
uniform payload), and `recUrl`'s transcript download fails
(`get_recording_transcript` yields its distinct download-failed
message). -/
theorem c8_amended_transcript_messages_witness :
    get_meeting_transcript ⟨none, ⟨fun _ _ _ => .ok [], fun _ => .ok "",
        fun _ => .ok ⟨[]⟩, fun _ => .ok rec1, fun _ => .ok rec1,
        fun _ => none⟩⟩ "m1" =
      .ok (.noTranscript "No transcript found") ∧
    get_recording_transcript ⟨none, apiC8⟩ "r1" =
      .failure ⟨"Internal Server Error", errMsg (.keyError "download_url"), 500⟩ ∧
    get_recording_transcript ⟨none, apiC8b⟩ "r2" =
      .ok (.noTranscript "Failed to retrieve transcript") :=
  ⟨c8_amended_transcript_messages.1 _ "m1" rec1 rfl rfl (by decide),
    c8_amended_transcript_messages.2.2.2.2.2.1 ⟨none, apiC8⟩ "r1" recNoUrl
      ⟨"f1", "TRANSCRIPT", "audio_transcript", none⟩ rfl rfl (by decide) rfl,
    c8_amended_transcript_messages.2.2.2.2.2.2.1 ⟨none, apiC8b⟩ "r2" recUrl
      ⟨"f2", "TRANSCRIPT", "audio_transcript", some "https://dl/f2"⟩
      "https://dl/f2" rfl rfl (by decide) rfl rfl⟩

/-! ## C9: uniform failure payloads and the attached status code -/

/-- C9 counterexample: the failure branches return
`jsonify({...}), 500` — a return value with the HTTP status code 500
attached — contradicting the claim that the core sets no status code on
any return value.  (The uniform `{error, message}` body itself holds.) -/
theorem c9_counterexample :
    get_meeting_recordings ⟨some "boom", apiNull⟩ "m" =
      .failure ⟨"Internal Server Error", "boom", 500⟩ ∧
    (⟨"Internal Server Error", "boom", 500⟩ : ErrorPayload).status = 500 := by
  exact ⟨by decide, rfl⟩

/-- C9 (amended): every exposed operation returns either a success
payload or the uniform failure payload whose `error` field is
`"Internal Server Error"` — and each such failure return carries the
HTTP status code 500 set by the operation itself. -/
theorem c9_amended_uniform_failures :
    (∀ (ctx : OpContext) (mid : String) (p : ErrorPayload),
      get_meeting_recordings ctx mid = .failure p →
      p.error = "Internal Server Error" ∧ p.status = 500) ∧
    (∀ (ctx : OpContext) (mid : String) (p : ErrorPayload),
      get_meeting_transcript ctx mid = .failure p →
      p.error = "Internal Server Error" ∧ p.status = 500) ∧
    (∀ (ctx : OpContext) (rid : String) (p : ErrorPayload),
      get_recording_transcript ctx rid = .failure p →
      p.error = "Internal Server Error" ∧ p.status = 500) ∧
    (∀ (ctx : OpContext) (instr : String) (cid : Option String)
      (startDay nowDay : Int) (p : ErrorPayload),
      get_instructor_recordings ctx instr cid startDay nowDay = .failure p →
      p.error = "Internal Server Error" ∧ p.status = 500) := by
  refine ⟨?_, ?_, ?_, ?_⟩
  · intro ctx mid p h
    unfold get_meeting_recordings at h
    repeat' split at h
    all_goals cases h
    all_goals exact ⟨rfl, rfl⟩
  · intro ctx mid p h
    unfold get_meeting_transcript at h
    repeat' split at h
    all_goals cases h
    all_goals exact ⟨rfl, rfl⟩
  · intro ctx rid p h
    unfold get_recording_transcript at h
    repeat' split at h
    all_goals cases h
    all_goals exact ⟨rfl, rfl⟩
  · intro ctx instr cid startDay nowDay p h
    unfold get_instructor_recordings at h
    repeat' split at h
    all_goals cases h
    all_goals exact ⟨rfl, rfl⟩

/-- Witness for the amended C9 on a concrete failing call. -/
theorem c9_amended_uniform_failures_witness :
    (⟨"Internal Server Error", "boom", 500⟩ : ErrorPayload).error =
      "Internal Server Error" ∧
    (⟨"Internal Server Error", "boom", 500⟩ : ErrorPayload).status = 500 :=
  c9_amended_uniform_failures.1 ⟨some "boom", apiNull⟩ "m" _ rfl
